import Mathlib

/-! Shallow embedding of the scoring core of the PerformanceEvalTool repository:

* `ml_models/evaluation/candidate_evaluator.py` — the evaluation
  orchestrator (`CandidateEvaluator`): CGPA normalization, feature
  extraction for the aggregator model, weighted-average aggregation,
  recommendation tiering, detailed feedback, the partial-evaluation
  session state and its lazy compute-on-read behaviour.
* `ml_models/resume_analysis/resume_analyzer.py` — skill extraction by
  word-boundary keyword matching, the ML feature vector of a résumé, and
  the trained-model / rule-based / exception-fallback scoring paths of
  `analyze_resume`.
* `ml_models/video_analysis/video_analyzer.py` — the 7-element speech
  feature vector of `extract_speech_features`, and the scoring paths of
  `assess_fluency` and `assess_vocabulary`.

Python floats are modelled as `ℚ` (every constant in the source is an
exact decimal).  A trained model's `predict` call (together with the
scaler's `transform`, where the source uses one) is modelled as an
explicit function parameter; a possibly-faulting `predict` is modelled
as a function into `Except String ℚ`.  NLTK's `sent_tokenize` /
`word_tokenize` are external library collaborators of the core and are
passed as explicit token-list arguments.
-/

/-! Orchestrator: `candidate_evaluator.py` -/

/-- Embeds `CandidateEvaluator.normalize_cgpa`: clamp the CGPA to `[0, scale]`
and divide by the scale (default scale 10.0 at every call site). -/
def normalize_cgpa (cgpa : ℚ) (scale : ℚ) : ℚ :=
  max 0 (min cgpa scale) / scale

/-- The slice of a resume-analysis result dict that the orchestrator
reads: `score`, `skill_count`, `experience_years`. -/
structure ResumeResult where
  score : ℚ
  skill_count : ℕ
  experience_years : ℚ
deriving DecidableEq

/-- The slice of the fluency metrics dict that the orchestrator reads. -/
structure FluencyMetrics where
  score : ℚ
  filler_word_ratio : ℚ
deriving DecidableEq

/-- The slice of the vocabulary metrics dict that the orchestrator reads. -/
structure VocabularyMetrics where
  score : ℚ
  lexical_diversity : ℚ
deriving DecidableEq

/-- The slice of a video-analysis result dict that the orchestrator reads. -/
structure VideoResult where
  fluency : FluencyMetrics
  vocabulary : VocabularyMetrics
  transcription : String
deriving DecidableEq

/-- Embeds `CandidateEvaluator._extract_features`: the 8-element feature vector
fed to the aggregator model. -/
def _extract_features (r : ResumeResult) (normalized_cgpa : ℚ) (v : VideoResult) : List ℚ :=
  [ r.score,
    normalized_cgpa,
    (r.skill_count : ℚ) / 20,
    r.experience_years / 10,
    v.fluency.score,
    v.vocabulary.score,
    FluencyMetrics.filler_word_ratio v.fluency,
    VocabularyMetrics.lexical_diversity v.vocabulary ]

/-- Embeds `CandidateEvaluator._calculate_weighted_score` with the constructor's
`default_weights` resume 0.3, academic 0.2, video_fluency 0.25,
video_vocabulary 0.25. -/
def _calculate_weighted_score (resume_score academic_score fluency_score vocabulary_score : ℚ) : ℚ :=
  0.3 * resume_score + 0.2 * academic_score +
    0.25 * fluency_score + 0.25 * vocabulary_score

/-- Embeds `CandidateEvaluator._generate_recommendation`.  The source signature
also receives the four component scores; they are never read. -/
def _generate_recommendation (overall_score resume_score academic_score
    fluency_score vocabulary_score : ℚ) : String :=
  if overall_score ≥ 0.8 then
    "Strong Recommendation: This candidate demonstrates excellent qualifications across all assessment areas."
  else if overall_score ≥ 0.7 then
    "Positive Recommendation: This candidate shows strong potential with good qualifications."
  else if overall_score ≥ 0.6 then
    "Moderate Recommendation: This candidate meets basic qualifications but has some areas for improvement."
  else
    "Not Recommended: This candidate does not meet the required qualifications for the position."

/-- The four per-domain feedback strings of
`CandidateEvaluator._generate_detailed_feedback`. -/
structure DetailedFeedback where
  resume : String
  academic : String
  fluency : String
  vocabulary : String
deriving DecidableEq

/-- Embeds `CandidateEvaluator._generate_detailed_feedback`. -/
def _generate_detailed_feedback (resume_result : ResumeResult) (normalized_cgpa : ℚ)
    (video_result : VideoResult) : DetailedFeedback :=
  { resume :=
      if resume_result.score ≥ 0.8 then
        "The resume demonstrates strong relevant experience and skills."
      else if resume_result.score ≥ 0.6 then
        "The resume shows adequate experience but could better highlight relevant skills."
      else
        "The resume needs significant improvement to highlight relevant experience and skills."
    academic :=
      if normalized_cgpa ≥ 0.8 then
        "Excellent academic performance demonstrates strong learning capability."
      else if normalized_cgpa ≥ 0.6 then
        "Good academic performance shows adequate educational foundation."
      else
        "Academic performance below expectations."
    fluency :=
      if video_result.fluency.score ≥ 0.8 then
        "Excellent speaking fluency with clear articulation and natural flow."
      else if video_result.fluency.score ≥ 0.6 then
        "Good speaking fluency but could improve sentence structure and reduce filler words."
      else
        "Speaking fluency needs significant improvement. Consider practice to reduce hesitations and improve flow."
    vocabulary :=
      if video_result.vocabulary.score ≥ 0.8 then
        "Excellent vocabulary range and appropriate use of technical terminology."
      else if video_result.vocabulary.score ≥ 0.6 then
        "Good vocabulary but could benefit from expanding technical and domain-specific terms."
      else
        "Limited vocabulary range. Consider expanding professional and technical vocabulary." }

/-- The complete evaluation result dict built by `evaluate_candidate`
(`component_scores` flattened into the four score fields). -/
structure EvaluationResult where
  overall_score : ℚ
  resume_score : ℚ
  academic_score : ℚ
  fluency_score : ℚ
  vocabulary_score : ℚ
  recommendation : String
  detailed_feedback : DetailedFeedback
  transcription : String
deriving DecidableEq

/-- The value returned by `evaluate_candidate`: either the incomplete-data
dict (`error`, `resume_processed`, `video_processed`, `cgpa_provided`) or
a complete evaluation result. -/
inductive EvalOutcome where
  | incomplete (resume_processed video_processed cgpa_provided : Bool)
  | complete (result : EvaluationResult)
deriving DecidableEq

/-- Embeds `CandidateEvaluator.current_evaluation`: the mutable session dict. -/
structure EvaluationState where
  resume_processed : Bool
  resume_data : Option ResumeResult
  video_processed : Bool
  video_data : Option VideoResult
  cgpa : Option ℚ
  overall_result : Option EvalOutcome
deriving DecidableEq

/-- The session state set up by `CandidateEvaluator.__init__` (and
restored by `reset_evaluation`). -/
def initialEvaluationState : EvaluationState :=
  { resume_processed := false
    resume_data := none
    video_processed := false
    video_data := none
    cgpa := none
    overall_result := none }

/-- Embeds `CandidateEvaluator.evaluate_candidate`, with the résumé and video
analyses already performed (the orchestrator feeds `resume_result` /
`video_result` dicts; the path-based variants only produce such dicts
first).  `model` is the optional trained aggregator
(`self.model.predict` on a feature vector), assumed total here; returns
the updated session state together with the outcome. -/
def evaluate_candidate (model : Option (List ℚ → ℚ)) (state : EvaluationState)
    (resume_result : Option ResumeResult) (cgpa : Option ℚ)
    (video_result : Option VideoResult) : EvaluationState × EvalOutcome :=
  let s1 := match resume_result with
    | some r => { state with resume_processed := true, resume_data := some r }
    | none => state
  let s2 := match cgpa with
    | some g => { s1 with cgpa := some g }
    | none => s1
  let s3 := match video_result with
    | some v => { s2 with video_processed := true, video_data := some v }
    | none => s2
  match resume_result, cgpa, video_result with
  | some r, some g, some v =>
    let resume_score := r.score
    let normalized_cgpa := normalize_cgpa g 10
    let fluency_score := v.fluency.score
    let vocabulary_score := v.vocabulary.score
    let features := _extract_features r normalized_cgpa v
    let overall_score := match model with
      | some m => m features
      | none => _calculate_weighted_score resume_score normalized_cgpa
          fluency_score vocabulary_score
    (s3, .complete
      { overall_score := overall_score
        resume_score := resume_score
        academic_score := normalized_cgpa
        fluency_score := fluency_score
        vocabulary_score := vocabulary_score
        recommendation := _generate_recommendation overall_score resume_score
          normalized_cgpa fluency_score vocabulary_score
        detailed_feedback := _generate_detailed_feedback r normalized_cgpa v
        transcription := v.transcription })
  | _, _, _ =>
    (s3, .incomplete s3.resume_processed s3.video_processed cgpa.isSome)

/-- Embeds `CandidateEvaluator._perform_overall_evaluation`: when all three
inputs are recorded in the session, re-run `evaluate_candidate` on the
stored data and cache the result in `overall_result`. -/
def _perform_overall_evaluation (model : Option (List ℚ → ℚ))
    (s : EvaluationState) : EvaluationState :=
  if s.resume_processed && s.video_processed && s.cgpa.isSome then
    let step := evaluate_candidate model s s.resume_data s.cgpa s.video_data
    { step.1 with overall_result := some step.2 }
  else
    s

/-- Embeds `CandidateEvaluator.get_evaluation_state`: returns the (possibly
lazily completed) session state; the boolean records whether this read
invoked `_perform_overall_evaluation` (invisible in the source's return
value, instrumented here to state the compute-exactly-once property). -/
def get_evaluation_state (model : Option (List ℚ → ℚ))
    (s : EvaluationState) : EvaluationState × Bool :=
  if s.resume_processed && s.video_processed && s.cgpa.isSome
      && s.overall_result.isNone then
    (_perform_overall_evaluation model s, true)
  else
    (s, false)

/-- The overall score carried by an outcome, when it is complete. -/
def outcomeScore : EvalOutcome → Option ℚ
  | .complete r => some r.overall_score
  | .incomplete _ _ _ => none

/-! Resume analysis: `resume_analyzer.py` -/

/-- Embeds `ResumeAnalyzer.technical_skills['programming']` (15 keywords). -/
def programming_skills : List String :=
  ["python", "java", "javascript", "c++", "c#", "ruby", "php",
   "html", "css", "sql", "nosql", "swift", "kotlin", "go", "rust"]

/-- Embeds `ResumeAnalyzer.technical_skills['data_science']` (13 keywords). -/
def data_science_skills : List String :=
  ["machine learning", "deep learning", "data mining", "statistics",
   "data analysis", "data visualization", "ai", "artificial intelligence",
   "tensorflow", "pytorch", "scikit-learn", "pandas", "numpy"]

/-- Embeds `ResumeAnalyzer.technical_skills['web_dev']` (12 keywords). -/
def web_dev_skills : List String :=
  ["react", "angular", "vue", "node.js", "django", "flask", "express",
   "frontend", "backend", "fullstack", "responsive", "rest api"]

/-- Embeds `ResumeAnalyzer.technical_skills['mobile_dev']` (8 keywords). -/
def mobile_dev_skills : List String :=
  ["android", "ios", "react native", "flutter", "swift", "kotlin",
   "mobile application", "app development"]

/-- Embeds `ResumeAnalyzer.technical_skills['devops']` (12 keywords). -/
def devops_skills : List String :=
  ["docker", "kubernetes", "jenkins", "ci/cd", "aws", "azure", "gcp",
   "cloud", "git", "github", "gitlab", "devops"]

/-- The five skill categories in the dict's insertion order. -/
def technical_skills : List (List String) :=
  [programming_skills, data_science_skills, web_dev_skills,
   mobile_dev_skills, devops_skills]

/-- Embeds `ResumeAnalyzer.sections`: the 8 known section headers. -/
def resume_sections : List String :=
  ["education", "experience", "skills", "projects", "certifications",
   "publications", "awards", "achievements"]

/-- A regex word character (`\w` over ASCII text): letter, digit or
underscore. -/
def isWordChar (c : Char) : Bool :=
  c.isAlphanum || c == '_'

/-- Whether a position of the text is a `\b` word boundary, given the
characters on either side (`none` at the ends of the string): exactly
one of the two sides is a word character. -/
def isBoundary (a b : Option Char) : Bool :=
  (match a with | some c => isWordChar c | none => false)
    != (match b with | some c => isWordChar c | none => false)

/-- Embeds `re.search(rf'\b{re.escape(skill)}\b', text)` for a literal pattern:
the pattern occurs somewhere in the text with a word boundary at both
ends.  `prev` carries the character preceding the current suffix. -/
def wordBoundaryOccursFrom (pat : List Char) (prev : Option Char) :
    List Char → Bool
  | [] => false
  | c :: rest =>
    (pat.isPrefixOf (c :: rest)
      && isBoundary prev pat.head?
      && isBoundary pat.getLast? ((c :: rest).drop pat.length).head?)
    || wordBoundaryOccursFrom pat (some c) rest

/-- Embeds `re.search(rf'\b{re.escape(skill)}\b', text_lower)` over a text given
as a character list. -/
def hasSkill (textLower : List Char) (skill : String) : Bool :=
  wordBoundaryOccursFrom skill.toList none textLower

/-- Embeds `str.lower` restricted to ASCII case mapping, as a character list. -/
def toLowerChars (s : String) : List Char :=
  s.toList.map Char.toLower

/-- Embeds `ResumeAnalyzer.extract_skills`, reduced to the per-category match
counts (the source collects the matching skills per category; only the
counts feed the feature vector and the scores). -/
def extract_skills_counts (text : String) : List ℕ :=
  technical_skills.map (fun cat => (cat.filter (hasSkill (toLowerChars text))).length)

/-- The degree levels recognised by `ResumeAnalyzer.extract_education`. -/
inductive DegreeLevel where
  | phd
  | masters
  | bachelors
  | associate
deriving DecidableEq

/-- The education-level encoding of `extract_ml_features` (feature 3). -/
def education_level_encoding : Option DegreeLevel → ℚ
  | some .phd => 1
  | some .masters => 0.8
  | some .bachelors => 0.6
  | some .associate => 0.4
  | none => 0

/-- Embeds `len(text.split())`: whitespace-separated word count. -/
def pyWordCount (text : String) : ℕ :=
  ((text.split Char.isWhitespace).filter (fun w => ¬ w.isEmpty)).length

/-- Embeds `ResumeAnalyzer.extract_ml_features`: the résumé feature vector.  As
in the source it receives the extracted pieces: the word count of the
text, the number of section headers found (`len(sections)`), the
per-category skill counts, the experience years and the degree level. -/
def extract_ml_features (wordCount : ℕ) (sectionsFound : ℕ)
    (skillCounts : List ℕ) (experience_years : ℚ)
    (degree : Option DegreeLevel) : List ℚ :=
  (skillCounts.map (fun count => (count : ℚ) / 10))
    ++ [ (skillCounts.sum : ℚ) / 20,
         min (experience_years / 10) 1,
         education_level_encoding degree,
         (sectionsFound : ℚ) / (resume_sections.length : ℚ),
         min ((wordCount : ℚ) / 1000) 1 ]

/-- The rule-based scoring branch of `ResumeAnalyzer.analyze_resume`
(used when no `resume_model.joblib` exists): skills up to 40 points,
experience up to 30, education up to 30, total divided by 100. -/
def resume_rule_score (skill_count : ℕ) (experience_years : ℚ)
    (degree : Option DegreeLevel) : ℚ :=
  let skills_score := min ((skill_count : ℚ) / 20) 1 * 40
  let experience_score := min (experience_years / 10) 1 * 30
  let education_score : ℚ := match degree with
    | some .phd => 30
    | some .masters => 25
    | some .bachelors => 20
    | some .associate => 15
    | none => 0
  (skills_score + experience_score + education_score) / 100

/-- The `except` fallback of `ResumeAnalyzer.analyze_resume`: the basic
capped sum used when the model path raises. -/
def resume_fallback_score (skill_count : ℕ) (experience_years : ℚ)
    (degree : Option DegreeLevel) : ℚ :=
  min ((skill_count : ℚ) / 20 + experience_years / 10
    + (if degree.isSome then 0.6 else 0)) 1

/-- The score computation of `ResumeAnalyzer.analyze_resume` with a total
model: if a trained model is present its raw prediction is the score,
otherwise the rule-based branch runs. -/
def resume_score (model : Option (List ℚ → ℚ)) (features : List ℚ)
    (skill_count : ℕ) (experience_years : ℚ)
    (degree : Option DegreeLevel) : ℚ :=
  match model with
  | some m => m features
  | none => resume_rule_score skill_count experience_years degree

/-- The score computation of `ResumeAnalyzer.analyze_resume` with a
possibly-faulting `predict`: the whole model branch sits in a
`try`/`except` whose handler computes the basic capped sum. -/
def resume_scoreE (model : Option (List ℚ → Except String ℚ))
    (features : List ℚ) (skill_count : ℕ) (experience_years : ℚ)
    (degree : Option DegreeLevel) : ℚ :=
  match model with
  | some m =>
    match m features with
    | .ok v => v
    | .error _ => resume_fallback_score skill_count experience_years degree
  | none => resume_rule_score skill_count experience_years degree

/-! Video analysis: `video_analyzer.py` -/

/-- Embeds `str.count(sub)`: number of non-overlapping occurrences of a pattern,
scanning left to right.  The first argument of `countOccFrom` is the
number of characters still to skip past the previous match. -/
def countOccFrom (pat : List Char) : ℕ → List Char → ℕ
  | _, [] => 0
  | Nat.succ k, _ :: rest => countOccFrom pat k rest
  | 0, c :: rest =>
    if pat.isPrefixOf (c :: rest) && !pat.isEmpty then
      1 + countOccFrom pat (pat.length - 1) rest
    else
      countOccFrom pat 0 rest

/-- Embeds `text.count(sub)` over character lists. -/
def countOcc (pat text : List Char) : ℕ :=
  countOccFrom pat 0 text

/-- The filler-word list of `extract_speech_features` / `assess_fluency`. -/
def filler_words : List String :=
  ["um", "uh", "like", "you know", "actually", "basically", "literally"]

/-- The conjunction list of `extract_speech_features` (feature 6). -/
def speech_conjunctions : List String :=
  ["and", "but", "or", "so", "because", "although", "though", "since",
   "unless", "while"]

/-- The preposition list of `extract_speech_features` (feature 6). -/
def speech_prepositions : List String :=
  ["in", "on", "at", "by", "with", "from", "to", "for", "of", "about",
   "through"]

/-- Embeds `str.isalpha`: nonempty and all characters alphabetic. -/
def pyIsAlpha (w : String) : Bool :=
  !w.toList.isEmpty && w.toList.all Char.isAlpha

/-- Embeds `VideoAnalyzer.extract_speech_features`.  NLTK's `sent_tokenize` and
`word_tokenize` are external collaborators; their outputs on the
transcription are passed in as `sentences` and `words`.  Returns the
7-element feature vector. -/
def extract_speech_features (transcription : String)
    (sentences words : List String) : List ℚ :=
  let words_lower := (words.filter pyIsAlpha).map toLowerChars
  let total_sentences := sentences.length
  let total_words := words_lower.length
  if total_sentences = 0 ∨ total_words = 0 then
    List.replicate 7 0
  else
    let speech_rate : ℚ := (total_words : ℚ) / (total_sentences : ℚ)
    let norm_speech_rate := min (speech_rate / 25) 1
    let pause_freq : ℚ := (total_sentences : ℚ) / ((total_words : ℚ) / 10)
    let norm_pause_freq := min (pause_freq / 2) 1
    let filler_count :=
      (filler_words.map (fun f => countOcc f.toList (toLowerChars transcription))).sum
    let filler_ratio : ℚ :=
      if total_words > 0 then (filler_count : ℚ) / (total_words : ℚ) else 0
    let unique_words := words_lower.dedup.length
    let lexical_diversity : ℚ := (unique_words : ℚ) / (total_words : ℚ)
    let avg_word_length : ℚ :=
      ((words_lower.map (fun w => (w.length : ℚ))).sum) / (total_words : ℚ)
    let norm_avg_word_length := min (avg_word_length / 8) 1
    let avg_sentence_length : ℚ := (total_words : ℚ) / (total_sentences : ℚ)
    let norm_avg_sentence_length := min (avg_sentence_length / 25) 1
    let complexity_count :=
      ((speech_conjunctions ++ speech_prepositions).map
        (fun w => words_lower.count w.toList)).sum
    let complexity_score : ℚ := (complexity_count : ℚ) / (total_sentences : ℚ)
    let norm_complexity_score := min (complexity_score / 5) 1
    [ norm_speech_rate, norm_pause_freq, filler_ratio, lexical_diversity,
      norm_avg_word_length, norm_avg_sentence_length, norm_complexity_score ]

/-- Embeds `max(0.0, min(x, 1.0))`: the clamp the source applies to the
rule-based fluency score and to every vocabulary score. -/
def clamp01 (x : ℚ) : ℚ :=
  max 0 (min x 1)

/-- The rule-based branch of `VideoAnalyzer.assess_fluency` (no
`fluency_model.joblib`): combines sentence length, complexity and filler
penalty, then clamps to `[0, 1]`. -/
def fluency_rule_score (avg_words_per_sentence complexity_score
    filler_ratio : ℚ) : ℚ :=
  let sentence_length_score := 1 - min (|avg_words_per_sentence - 15| / 10) 1
  let normalized_complexity := min (complexity_score / 2) 1
  let filler_penalty := 1 - min (filler_ratio * 10) 1
  clamp01 (0.4 * sentence_length_score + 0.4 * normalized_complexity
    + 0.2 * filler_penalty)

/-- The fluency score of `VideoAnalyzer.assess_fluency` with a total
model: the model path is `predict` on the scaler-transformed features,
returned raw. -/
def fluency_score_of (model : Option ((List ℚ → List ℚ) × (List ℚ → ℚ)))
    (features : List ℚ) (avg_words_per_sentence complexity_score
    filler_ratio : ℚ) : ℚ :=
  match model with
  | some (scaler, m) => m (scaler features)
  | none => fluency_rule_score avg_words_per_sentence complexity_score filler_ratio

/-- The fluency score of `VideoAnalyzer.assess_fluency` with a
possibly-faulting `predict`: the `except` handler substitutes the
constant `0.5`. -/
def fluency_score_ofE
    (model : Option ((List ℚ → List ℚ) × (List ℚ → Except String ℚ)))
    (features : List ℚ) (avg_words_per_sentence complexity_score
    filler_ratio : ℚ) : ℚ :=
  match model with
  | some (scaler, m) =>
    match m (scaler features) with
    | .ok v => v
    | .error _ => 0.5
  | none => fluency_rule_score avg_words_per_sentence complexity_score filler_ratio

/-- The rule-based branch of `VideoAnalyzer.assess_vocabulary` (also the
body of its `except` handler). -/
def vocab_rule_score (lexical_diversity avg_word_length
    normalized_sophistication : ℚ) : ℚ :=
  0.4 * lexical_diversity + 0.3 * min (avg_word_length / 10) 1
    + 0.3 * normalized_sophistication

/-- The vocabulary score of `VideoAnalyzer.assess_vocabulary` with a
total model: whichever branch produced the value, the final
`max(0.0, min(score, 1.0))` clamps it. -/
def vocabulary_score_of (model : Option ((List ℚ → List ℚ) × (List ℚ → ℚ)))
    (features : List ℚ) (lexical_diversity avg_word_length
    normalized_sophistication : ℚ) : ℚ :=
  clamp01 (match model with
    | some (scaler, m) => m (scaler features)
    | none => vocab_rule_score lexical_diversity avg_word_length
        normalized_sophistication)

/-- The vocabulary score of `VideoAnalyzer.assess_vocabulary` with a
possibly-faulting `predict`: the `except` handler recomputes the
rule-based formula; the final clamp applies in every case. -/
def vocabulary_score_ofE
    (model : Option ((List ℚ → List ℚ) × (List ℚ → Except String ℚ)))
    (features : List ℚ) (lexical_diversity avg_word_length
    normalized_sophistication : ℚ) : ℚ :=
  clamp01 (match model with
    | some (scaler, m) =>
      match m (scaler features) with
      | .ok v => v
      | .error _ => vocab_rule_score lexical_diversity avg_word_length
          normalized_sophistication
    | none => vocab_rule_score lexical_diversity avg_word_length
        normalized_sophistication)

/-- Embeds `CandidateEvaluator.evaluate_candidate` with a possibly-faulting
aggregator `predict`: the call sits in no `try`/`except`, so a fault
aborts the call after the session-state updates have happened.  Returns
the updated state and either the outcome or the propagated fault. -/
def evaluate_candidateE (model : Option (List ℚ → Except String ℚ))
    (state : EvaluationState) (resume_result : Option ResumeResult)
    (cgpa : Option ℚ) (video_result : Option VideoResult) :
    EvaluationState × Except String EvalOutcome :=
  let s1 := match resume_result with
    | some r => { state with resume_processed := true, resume_data := some r }
    | none => state
  let s2 := match cgpa with
    | some g => { s1 with cgpa := some g }
    | none => s1
  let s3 := match video_result with
    | some v => { s2 with video_processed := true, video_data := some v }
    | none => s2
  match resume_result, cgpa, video_result with
  | some r, some g, some v =>
    let resume_score := r.score
    let normalized_cgpa := normalize_cgpa g 10
    let fluency_score := v.fluency.score
    let vocabulary_score := v.vocabulary.score
    let features := _extract_features r normalized_cgpa v
    let overall : Except String ℚ := match model with
      | some m => m features
      | none => .ok (_calculate_weighted_score resume_score normalized_cgpa
          fluency_score vocabulary_score)
    match overall with
    | .error e => (s3, .error e)
    | .ok overall_score =>
      (s3, .ok (.complete
        { overall_score := overall_score
          resume_score := resume_score
          academic_score := normalized_cgpa
          fluency_score := fluency_score
          vocabulary_score := vocabulary_score
          recommendation := _generate_recommendation overall_score resume_score
            normalized_cgpa fluency_score vocabulary_score
          detailed_feedback := _generate_detailed_feedback r normalized_cgpa v
          transcription := v.transcription }))
  | _, _, _ =>
    (s3, .ok (.incomplete s3.resume_processed s3.video_processed cgpa.isSome))

/-! Supplying the three inputs one at a time -/

/-- Supply only a résumé result to the session (the state part of an
`evaluate_candidate` call with the other two inputs absent). -/
def supply_resume (model : Option (List ℚ → ℚ)) (s : EvaluationState)
    (r : ResumeResult) : EvaluationState :=
  (evaluate_candidate model s (some r) none none).1

/-- Supply only a CGPA to the session. -/
def supply_cgpa (model : Option (List ℚ → ℚ)) (s : EvaluationState)
    (g : ℚ) : EvaluationState :=
  (evaluate_candidate model s none (some g) none).1

/-- Supply only a video result to the session. -/
def supply_video (model : Option (List ℚ → ℚ)) (s : EvaluationState)
    (v : VideoResult) : EvaluationState :=
  (evaluate_candidate model s none none (some v)).1

/-- The outcome of a single `evaluate_candidate` call carrying all three
inputs at once, on a fresh session. -/
def direct_outcome (model : Option (List ℚ → ℚ)) (r : ResumeResult)
    (g : ℚ) (v : VideoResult) : EvalOutcome :=
  (evaluate_candidate model initialEvaluationState (some r) (some g) (some v)).2

/-- A concrete fully-populated session with no cached overall result. -/
def fullSession : EvaluationState :=
  { resume_processed := true
    resume_data := some ⟨0.7, 5, 3⟩
    video_processed := true
    video_data := some ⟨⟨0.6, 0.1⟩, ⟨0.5, 0.4⟩, "hello"⟩
    cgpa := some 8
    overall_result := none }

/-- A résumé text made of twelve programming-skill keywords.  On this
text the source's extractors find no section headers, no experience
patterns (no digits) and no degree patterns, so the feature vector is
built with word count 12, zero sections found, experience 0 and no
degree. -/
def counterexample_resume_text : String :=
  "python java ruby php html css sql nosql swift kotlin go rust"

/-! Theorems about the claims -/

/-- C3 counterexample: with no aggregator model and component scores
(0.8, 0.5, 0.6, 0.6) the orchestrator's overall score is 0.64 — the
weighted sum 0.3·0.8 + 0.2·0.5 + 0.25·0.6 + 0.25·0.6 — and not the
0.615 the claim asserts it equals. -/
theorem claim_C3_counterexample :
    outcomeScore (evaluate_candidate none initialEvaluationState
      (some ⟨0.8, 0, 0⟩) (some 5) (some ⟨⟨0.6, 0⟩, ⟨0.6, 0⟩, ""⟩)).2
      = some 0.64 ∧ (0.64 : ℚ) ≠ 0.615 := by
  constructor
  · show some (_calculate_weighted_score 0.8 (normalize_cgpa 5 10) 0.6 0.6) = some 0.64
    norm_num [_calculate_weighted_score, normalize_cgpa, min_def, max_def]
  · norm_num

/-- C3 (amended): with no aggregator model the overall score is the
fixed weighted average with weights résumé 0.3, academic 0.2, fluency
0.25, vocabulary 0.25, which sum to 1; for component scores
(0.8, 0.5, 0.6, 0.6) it equals 0.64. -/
theorem claim_C3_weighted_average :
    (∀ r a f v : ℚ, _calculate_weighted_score r a f v
      = 0.3 * r + 0.2 * a + 0.25 * f + 0.25 * v) ∧
    ((0.3 : ℚ) + 0.2 + 0.25 + 0.25 = 1) ∧
    (∀ (s : EvaluationState) (r : ResumeResult) (g : ℚ) (v : VideoResult),
      outcomeScore (evaluate_candidate none s (some r) (some g) (some v)).2
        = some (_calculate_weighted_score r.score (normalize_cgpa g 10)
            v.fluency.score v.vocabulary.score)) ∧
    _calculate_weighted_score 0.8 0.5 0.6 0.6 = 0.64 := by
  refine ⟨fun r a f v => rfl, by norm_num, fun s r g v => rfl, ?_⟩
  norm_num [_calculate_weighted_score]

/-- C6: the recommendation depends on the overall score alone, with
lower-inclusive thresholds: ≥ 0.8 gives the Strong tier, [0.7, 0.8) the
Positive tier, [0.6, 0.7) the Moderate tier, and < 0.6 the
Not-Recommended tier. -/
theorem claim_C6_recommendation_tiers (o r a f v r' a' f' v' : ℚ) :
    (_generate_recommendation o r a f v = _generate_recommendation o r' a' f' v') ∧
    (0.8 ≤ o → _generate_recommendation o r a f v =
      "Strong Recommendation: This candidate demonstrates excellent qualifications across all assessment areas.") ∧
    (0.7 ≤ o → o < 0.8 → _generate_recommendation o r a f v =
      "Positive Recommendation: This candidate shows strong potential with good qualifications.") ∧
    (0.6 ≤ o → o < 0.7 → _generate_recommendation o r a f v =
      "Moderate Recommendation: This candidate meets basic qualifications but has some areas for improvement.") ∧
    (o < 0.6 → _generate_recommendation o r a f v =
      "Not Recommended: This candidate does not meet the required qualifications for the position.") := by
  unfold _generate_recommendation
  refine ⟨rfl, ?_, ?_, ?_, ?_⟩ <;> intros <;> split_ifs <;>
    first | rfl | linarith

/-- C6 witness: overall score 0.8 lands in the Strong tier and 0.6 in
the Moderate tier. -/
theorem claim_C6_recommendation_tiers_witness :
    _generate_recommendation 0.8 0 0 0 0 =
      "Strong Recommendation: This candidate demonstrates excellent qualifications across all assessment areas." ∧
    _generate_recommendation 0.6 0 0 0 0 =
      "Moderate Recommendation: This candidate meets basic qualifications but has some areas for improvement." :=
  ⟨(claim_C6_recommendation_tiers 0.8 0 0 0 0 0 0 0 0).2.1 (by norm_num),
   (claim_C6_recommendation_tiers 0.6 0 0 0 0 0 0 0 0).2.2.2.1 (by norm_num) (by norm_num)⟩

/-- C7: an `evaluate_candidate` call missing any of résumé, CGPA or
video returns the structured incomplete outcome reporting the session's
input flags — never a computed score; in particular a fresh session
given only résumé and CGPA reports `video_processed = false`. -/
theorem claim_C7_incomplete_contract (model : Option (List ℚ → ℚ))
    (s : EvaluationState) (rr : Option ResumeResult) (g : Option ℚ)
    (vr : Option VideoResult) (r₀ : ResumeResult) (g₀ : ℚ) :
    (rr = none ∨ g = none ∨ vr = none →
      (evaluate_candidate model s rr g vr).2 =
        .incomplete (evaluate_candidate model s rr g vr).1.resume_processed
          (evaluate_candidate model s rr g vr).1.video_processed g.isSome) ∧
    (evaluate_candidate model initialEvaluationState (some r₀) (some g₀) none).2
      = .incomplete true false true := by
  constructor
  · intro h
    rcases rr with _ | r <;> rcases g with _ | gg <;> rcases vr with _ | v <;>
      first
        | rfl
        | (exfalso; rcases h with h | h | h <;> exact Option.noConfusion h)
  · rfl

/-- C7 witness: a fresh session evaluated with no inputs at all returns
the incomplete outcome with all three flags false, and with résumé and
CGPA only it reports `video_processed = false`. -/
theorem claim_C7_incomplete_contract_witness :
    (evaluate_candidate none initialEvaluationState none none none).2
      = .incomplete false false false ∧
    (evaluate_candidate none initialEvaluationState (some ⟨0.5, 3, 2⟩) (some 8) none).2
      = .incomplete true false true :=
  ⟨(claim_C7_incomplete_contract none initialEvaluationState none none none
      ⟨0.5, 3, 2⟩ 8).1 (Or.inl rfl),
   (claim_C7_incomplete_contract none initialEvaluationState none none none
      ⟨0.5, 3, 2⟩ 8).2⟩

/-- C10: `evaluate_candidate` never writes the session's
`overall_result` field, whatever inputs it receives and whether the
outcome is complete or incomplete. -/
theorem claim_C10_overall_result_frame (model : Option (List ℚ → ℚ))
    (s : EvaluationState) (rr : Option ResumeResult) (g : Option ℚ)
    (vr : Option VideoResult) :
    ((evaluate_candidate model s rr g vr).1).overall_result = s.overall_result := by
  rcases rr with _ | r <;> rcases g with _ | gg <;> rcases vr with _ | v <;> rfl

/-- C9: supplying résumé, CGPA and video to a fresh session in separate
calls, in any of the six orders, and then reading the session state
caches exactly the outcome of a single `evaluate_candidate` call that
carries all three at once — in particular the same `overall_score`. -/
theorem claim_C9_order_independence (model : Option (List ℚ → ℚ))
    (r : ResumeResult) (g : ℚ) (v : VideoResult) :
    ((get_evaluation_state model (supply_video model (supply_cgpa model
        (supply_resume model initialEvaluationState r) g) v)).1.overall_result
      = some (direct_outcome model r g v)) ∧
    ((get_evaluation_state model (supply_cgpa model (supply_video model
        (supply_resume model initialEvaluationState r) v) g)).1.overall_result
      = some (direct_outcome model r g v)) ∧
    ((get_evaluation_state model (supply_video model (supply_resume model
        (supply_cgpa model initialEvaluationState g) r) v)).1.overall_result
      = some (direct_outcome model r g v)) ∧
    ((get_evaluation_state model (supply_resume model (supply_video model
        (supply_cgpa model initialEvaluationState g) v) r)).1.overall_result
      = some (direct_outcome model r g v)) ∧
    ((get_evaluation_state model (supply_cgpa model (supply_resume model
        (supply_video model initialEvaluationState v) r) g)).1.overall_result
      = some (direct_outcome model r g v)) ∧
    ((get_evaluation_state model (supply_resume model (supply_cgpa model
        (supply_video model initialEvaluationState v) g) r)).1.overall_result
      = some (direct_outcome model r g v)) := by
  refine ⟨rfl, rfl, rfl, rfl, rfl, rfl⟩

/-- C8: once the session holds all three inputs and no cached overall
result, the first state read computes and caches the overall result
(instrumentation boolean `true`), and a second read returns the very
same state without recomputation (boolean `false`). -/
theorem claim_C8_lazy_compute_once (model : Option (List ℚ → ℚ))
    (s : EvaluationState) (h1 : s.resume_processed = true)
    (h2 : s.video_processed = true) (h3 : s.cgpa.isSome = true)
    (h4 : s.overall_result = none) :
    (get_evaluation_state model s).2 = true ∧
    ((get_evaluation_state model s).1).overall_result.isSome = true ∧
    get_evaluation_state model ((get_evaluation_state model s).1)
      = ((get_evaluation_state model s).1, false) := by
  have hcond : (s.resume_processed && s.video_processed && s.cgpa.isSome
      && s.overall_result.isNone) = true := by
    simp [h1, h2, h3, h4]
  have hperf : _perform_overall_evaluation model s =
      { (evaluate_candidate model s s.resume_data s.cgpa s.video_data).1 with
        overall_result :=
          some (evaluate_candidate model s s.resume_data s.cgpa s.video_data).2 } := by
    unfold _perform_overall_evaluation
    simp [h1, h2, h3]
  refine ⟨?_, ?_, ?_⟩
  · simp [get_evaluation_state, hcond]
  · simp [get_evaluation_state, hcond, hperf]
  · simp [get_evaluation_state, hcond, hperf]

/-- C8 witness: a concrete fully-populated session with no cached result
computes on the first read and is returned unchanged by the second. -/
theorem claim_C8_lazy_compute_once_witness :
    (get_evaluation_state none fullSession).2 = true ∧
    ((get_evaluation_state none fullSession).1).overall_result.isSome = true ∧
    get_evaluation_state none ((get_evaluation_state none fullSession).1)
      = ((get_evaluation_state none fullSession).1, false) :=
  claim_C8_lazy_compute_once none fullSession rfl rfl rfl rfl

/-- C1 counterexample: with a trained aggregator model whose prediction
is 1.5, the orchestrator's overall score is the raw 1.5 — no clamp to
[0, 1] is applied on the trained-model path. -/
theorem claim_C1_counterexample :
    outcomeScore (evaluate_candidate (some (fun _ => (1.5 : ℚ)))
      initialEvaluationState (some ⟨0.5, 0, 0⟩) (some 8)
      (some ⟨⟨0.5, 0⟩, ⟨0.5, 0⟩, ""⟩)).2 = some 1.5 ∧
    ¬ ((1.5 : ℚ) ≤ 1) := by
  exact ⟨rfl, by norm_num⟩

/-- C1 (amended): on the rule-based paths every score lies in [0, 1]
(resume rule-based and exception-fallback scores, fluency rule-based
score, vocabulary score on every path, normalized CGPA, and the weighted
average of component scores in [0, 1]); but on the trained-model path
the resume, fluency and overall scores equal the raw model prediction,
with no clamp, so they are not bounded for every possible model
output. -/
theorem claim_C1_score_bounds :
    (∀ (m : List ℚ → ℚ) (feats : List ℚ) (sc : ℕ) (ey : ℚ)
        (deg : Option DegreeLevel),
      resume_score (some m) feats sc ey deg = m feats) ∧
    (∀ (scaler : List ℚ → List ℚ) (m : List ℚ → ℚ) (feats : List ℚ)
        (awps cs fr : ℚ),
      fluency_score_of (some (scaler, m)) feats awps cs fr = m (scaler feats)) ∧
    (∀ (m : List ℚ → ℚ) (s : EvaluationState) (r : ResumeResult) (g : ℚ)
        (v : VideoResult),
      outcomeScore (evaluate_candidate (some m) s (some r) (some g) (some v)).2
        = some (m (_extract_features r (normalize_cgpa g 10) v))) ∧
    (∀ (sc : ℕ) (ey : ℚ) (deg : Option DegreeLevel), 0 ≤ ey →
      0 ≤ resume_rule_score sc ey deg ∧ resume_rule_score sc ey deg ≤ 1) ∧
    (∀ (sc : ℕ) (ey : ℚ) (deg : Option DegreeLevel), 0 ≤ ey →
      0 ≤ resume_fallback_score sc ey deg ∧ resume_fallback_score sc ey deg ≤ 1) ∧
    (∀ awps cs fr : ℚ,
      0 ≤ fluency_rule_score awps cs fr ∧ fluency_rule_score awps cs fr ≤ 1) ∧
    (∀ (mp : Option ((List ℚ → List ℚ) × (List ℚ → ℚ))) (feats : List ℚ)
        (ld awl ns : ℚ),
      0 ≤ vocabulary_score_of mp feats ld awl ns ∧
        vocabulary_score_of mp feats ld awl ns ≤ 1) ∧
    (∀ g : ℚ, 0 ≤ normalize_cgpa g 10 ∧ normalize_cgpa g 10 ≤ 1) ∧
    (∀ r a f v : ℚ, 0 ≤ r → r ≤ 1 → 0 ≤ a → a ≤ 1 → 0 ≤ f → f ≤ 1 →
      0 ≤ v → v ≤ 1 →
      0 ≤ _calculate_weighted_score r a f v ∧
        _calculate_weighted_score r a f v ≤ 1) := by
  refine ⟨fun m feats sc ey deg => rfl, fun scaler m feats awps cs fr => rfl,
    fun m s r g v => rfl, ?_, ?_, ?_, ?_, ?_, ?_⟩
  · intro sc ey deg hey
    unfold resume_rule_score
    have h1 : (0 : ℚ) ≤ min ((sc : ℚ) / 20) 1 :=
      le_min (by positivity) zero_le_one
    have h2 : min ((sc : ℚ) / 20) 1 ≤ 1 := min_le_right _ _
    have h3 : (0 : ℚ) ≤ min (ey / 10) 1 :=
      le_min (by positivity) zero_le_one
    have h4 : min (ey / 10) 1 ≤ 1 := min_le_right _ _
    rcases deg with _ | level
    · constructor <;> simp only <;> nlinarith
    · rcases level <;> constructor <;> simp only <;> nlinarith
  · intro sc ey deg hey
    unfold resume_fallback_score
    constructor
    · refine le_min ?_ zero_le_one
      have : (0 : ℚ) ≤ if deg.isSome then (0.6 : ℚ) else 0 := by
        split <;> norm_num
      positivity
    · exact min_le_right _ _
  · intro awps cs fr
    unfold fluency_rule_score clamp01
    exact ⟨le_max_left _ _, max_le (by norm_num) (min_le_right _ _)⟩
  · intro mp feats ld awl ns
    unfold vocabulary_score_of clamp01
    exact ⟨le_max_left _ _, max_le (by norm_num) (min_le_right _ _)⟩
  · intro g
    unfold normalize_cgpa
    constructor
    · positivity
    · rw [div_le_one (by norm_num)]
      exact max_le (by norm_num) (min_le_right _ _)
  · intro r a f v hr hr1 ha ha1 hf hf1 hv hv1
    unfold _calculate_weighted_score
    constructor <;> nlinarith

/-- C1 witness: the bound components of `claim_C1_score_bounds`
instantiated at concrete inputs. -/
theorem claim_C1_score_bounds_witness :
    (0 ≤ resume_rule_score 4 3 (some .masters) ∧
      resume_rule_score 4 3 (some .masters) ≤ 1) ∧
    (0 ≤ resume_fallback_score 4 3 (some .masters) ∧
      resume_fallback_score 4 3 (some .masters) ≤ 1) ∧
    (0 ≤ normalize_cgpa 12 10 ∧ normalize_cgpa 12 10 ≤ 1) ∧
    (0 ≤ _calculate_weighted_score 0.8 0.5 0.6 0.6 ∧
      _calculate_weighted_score 0.8 0.5 0.6 0.6 ≤ 1) :=
  ⟨claim_C1_score_bounds.2.2.2.1 4 3 (some .masters) (by norm_num),
   claim_C1_score_bounds.2.2.2.2.1 4 3 (some .masters) (by norm_num),
   claim_C1_score_bounds.2.2.2.2.2.2.2.1 12,
   claim_C1_score_bounds.2.2.2.2.2.2.2.2 0.8 0.5 0.6 0.6 (by norm_num)
     (by norm_num) (by norm_num) (by norm_num) (by norm_num) (by norm_num)
     (by norm_num) (by norm_num)⟩

/-- C2 counterexample: a fault raised by the aggregator model's predict
call inside `evaluate_candidate` is not caught — the call returns the
propagated fault to the caller instead of falling back to the
rule-based path. -/
theorem claim_C2_counterexample :
    (evaluate_candidateE (some (fun _ => .error "model fault"))
      initialEvaluationState (some ⟨0.5, 0, 0⟩) (some 8)
      (some ⟨⟨0.5, 0⟩, ⟨0.5, 0⟩, ""⟩)).2 = .error "model fault" := by
  rfl

/-- C2 (amended): a predict fault is caught inside the resume scorer
(falling back to the basic capped sum, not the rule-based weighted sum),
inside the fluency scorer (substituting the constant 0.5, not the
rule-based formula), and inside the vocabulary scorer (recomputing the
clamped rule-based formula); but the orchestrator's aggregation has no
handler, so a fault of its model's predict call propagates to the
caller. -/
theorem claim_C2_fault_handling :
    (∀ (m : List ℚ → Except String ℚ) (feats : List ℚ) (sc : ℕ) (ey : ℚ)
        (deg : Option DegreeLevel) (e : String), m feats = .error e →
      resume_scoreE (some m) feats sc ey deg
        = resume_fallback_score sc ey deg) ∧
    (∀ (scaler : List ℚ → List ℚ) (m : List ℚ → Except String ℚ)
        (feats : List ℚ) (awps cs fr : ℚ) (e : String),
      m (scaler feats) = .error e →
      fluency_score_ofE (some (scaler, m)) feats awps cs fr = 0.5) ∧
    (∀ (scaler : List ℚ → List ℚ) (m : List ℚ → Except String ℚ)
        (feats : List ℚ) (ld awl ns : ℚ) (e : String),
      m (scaler feats) = .error e →
      vocabulary_score_ofE (some (scaler, m)) feats ld awl ns
        = clamp01 (vocab_rule_score ld awl ns)) ∧
    (∀ (m : List ℚ → Except String ℚ) (s : EvaluationState)
        (r : ResumeResult) (g : ℚ) (v : VideoResult) (e : String),
      m (_extract_features r (normalize_cgpa g 10) v) = .error e →
      (evaluate_candidateE (some m) s (some r) (some g) (some v)).2
        = .error e) := by
  refine ⟨?_, ?_, ?_, ?_⟩
  · intro m feats sc ey deg e h
    simp [resume_scoreE, h]
  · intro scaler m feats awps cs fr e h
    simp [fluency_score_ofE, h]
  · intro scaler m feats ld awl ns e h
    simp [vocabulary_score_ofE, h]
  · intro m s r g v e h
    simp [evaluate_candidateE, h]

/-- C2 witness: `claim_C2_fault_handling` at a concrete always-faulting
model. -/
theorem claim_C2_fault_handling_witness :
    resume_scoreE (some (fun _ => .error "boom")) [] 4 3 (some .masters)
      = resume_fallback_score 4 3 (some .masters) ∧
    fluency_score_ofE (some (id, fun _ => .error "boom")) [] 12 1 0 = 0.5 ∧
    vocabulary_score_ofE (some (id, fun _ => .error "boom")) [] 0.5 4 0.2
      = clamp01 (vocab_rule_score 0.5 4 0.2) ∧
    (evaluate_candidateE (some (fun _ => .error "boom"))
      initialEvaluationState (some ⟨0.5, 0, 0⟩) (some 8)
      (some ⟨⟨0.5, 0⟩, ⟨0.5, 0⟩, ""⟩)).2 = .error "boom" :=
  ⟨claim_C2_fault_handling.1 (fun _ => .error "boom") [] 4 3 (some .masters)
      "boom" rfl,
   claim_C2_fault_handling.2.1 id (fun _ => .error "boom") [] 12 1 0 "boom" rfl,
   claim_C2_fault_handling.2.2.1 id (fun _ => .error "boom") [] 0.5 4 0.2
      "boom" rfl,
   claim_C2_fault_handling.2.2.2 (fun _ => .error "boom") initialEvaluationState
      ⟨0.5, 0, 0⟩ 8 ⟨⟨0.5, 0⟩, ⟨0.5, 0⟩, ""⟩ "boom" rfl⟩

/-- C4 counterexample: on the transcript "umuh" — a single alphabetic
token, which NLTK tokenizes as one sentence and one word — the
filler-word ratio (element 2 of the speech feature vector) is 2, because
`str.count` finds the substrings "um" and "uh" inside the single word;
so not every element lies in [0, 1]. -/
theorem claim_C4_counterexample :
    extract_speech_features "umuh" ["umuh"] ["umuh"]
      = [1/25, 1, 2, 1, 1/2, 1/25, 0] ∧ ¬ ((2 : ℚ) ≤ 1) := by
  constructor
  · have hf : List.filter pyIsAlpha ["umuh"] = ["umuh"] := by decide
    have hlc : List.map toLowerChars ["umuh"] = [['u','m','u','h']] := by decide
    have hc : (filler_words.map
        (fun f => countOcc f.toList (toLowerChars "umuh"))).sum = 2 := by decide
    have hded : [['u','m','u','h']].dedup = [['u','m','u','h']] := by decide
    have hcnt : ((speech_conjunctions ++ speech_prepositions).map
        (fun w => [['u','m','u','h']].count w.toList)).sum = 0 := by decide
    simp only [extract_speech_features, hf, hlc, hded, hc, hcnt]
    norm_num
  · norm_num

/-- C4 (amended): every element of the 7-element speech feature vector
is nonnegative, and every element except element 2 — the filler-word
ratio, which counts filler substrings of the transcription against the
count of alphabetic tokens and can exceed 1 — is at most 1; a degenerate
transcript (zero sentences or zero alphabetic tokens) yields the
all-zero vector rather than an error. -/
theorem claim_C4_speech_feature_bounds (t : String) (ss ws : List String) :
    (∀ x ∈ extract_speech_features t ss ws, 0 ≤ x) ∧
    (∀ x ∈ (extract_speech_features t ss ws).take 2
        ++ (extract_speech_features t ss ws).drop 3, x ≤ 1) ∧
    (ss.length = 0 ∨ (ws.filter pyIsAlpha).length = 0 →
      extract_speech_features t ss ws = List.replicate 7 0) := by
  simp only [extract_speech_features]
  set WL := List.map toLowerChars (List.filter pyIsAlpha ws) with hWL
  set n := ss.length with hn
  split_ifs with hdeg hpos
  · refine ⟨?_, ?_, fun _ => rfl⟩
    · intro x hx
      rw [List.eq_of_mem_replicate hx]
    · intro x hx
      simp only [List.replicate, List.take, List.drop, List.mem_append,
        List.mem_cons, List.not_mem_nil, or_false] at hx
      rcases hx with (rfl | rfl) | (rfl | rfl | rfl | rfl) <;> norm_num
  · have hs : n ≠ 0 := fun h => hdeg (Or.inl h)
    have hw : WL.length ≠ 0 := fun h => hdeg (Or.inr h)
    have hwQ : (0 : ℚ) < (WL.length : ℚ) := by
      exact_mod_cast Nat.pos_of_ne_zero hw
    have hdedup : ((WL.dedup.length : ℕ) : ℚ) ≤ (WL.length : ℚ) := by
      exact_mod_cast (List.dedup_sublist _).length_le
    have h25 : (0 : ℚ) ≤ 25 := by norm_num
    have h10 : (0 : ℚ) ≤ 10 := by norm_num
    have h8 : (0 : ℚ) ≤ 8 := by norm_num
    have h5 : (0 : ℚ) ≤ 5 := by norm_num
    have h2 : (0 : ℚ) ≤ 2 := by norm_num
    have hsum : (0 : ℚ) ≤ (List.map (fun w => (w.length : ℚ)) WL).sum := by
      apply List.sum_nonneg
      intro y hy
      rcases List.mem_map.mp hy with ⟨w, _, rfl⟩
      exact Nat.cast_nonneg _
    refine ⟨?_, ?_, ?_⟩
    · intro x hx
      simp only [List.mem_cons, List.not_mem_nil, or_false] at hx
      rcases hx with rfl | rfl | rfl | rfl | rfl | rfl | rfl
      · exact le_min (div_nonneg (div_nonneg (Nat.cast_nonneg _)
          (Nat.cast_nonneg _)) h25) zero_le_one
      · exact le_min (div_nonneg (div_nonneg (Nat.cast_nonneg _)
          (div_nonneg (Nat.cast_nonneg _) h10)) h2) zero_le_one
      · exact div_nonneg (Nat.cast_nonneg _) (Nat.cast_nonneg _)
      · exact div_nonneg (Nat.cast_nonneg _) (Nat.cast_nonneg _)
      · exact le_min (div_nonneg (div_nonneg hsum (Nat.cast_nonneg _)) h8)
          zero_le_one
      · exact le_min (div_nonneg (div_nonneg (Nat.cast_nonneg _)
          (Nat.cast_nonneg _)) h25) zero_le_one
      · exact le_min (div_nonneg (div_nonneg (Nat.cast_nonneg _)
          (Nat.cast_nonneg _)) h5) zero_le_one
    · intro x hx
      simp only [List.take, List.drop, List.mem_append, List.mem_cons,
        List.not_mem_nil, or_false] at hx
      rcases hx with (rfl | rfl) | (rfl | rfl | rfl | rfl)
      · exact min_le_right _ _
      · exact min_le_right _ _
      · rw [div_le_one hwQ]
        exact hdedup
      · exact min_le_right _ _
      · exact min_le_right _ _
      · exact min_le_right _ _
    · intro h
      exfalso
      apply hdeg
      rcases h with h | h
      · exact Or.inl h
      · exact Or.inr (by simpa [hWL] using h)
  · exfalso
    exact hdeg (Or.inr (Nat.eq_zero_of_not_pos hpos))

/-- C4 witness: the degenerate case of `claim_C4_speech_feature_bounds`
at the empty transcript. -/
theorem claim_C4_speech_feature_bounds_witness :
    extract_speech_features "" [] [] = List.replicate 7 0 :=
  (claim_C4_speech_feature_bounds "" [] []).2.2 (Or.inl rfl)

/-- C5 counterexample: on a résumé text containing twelve programming
keywords the per-category skill-density element of the feature vector is
12/10 = 1.2, because each category count is divided by the constant 10
while the programming category holds 15 keywords; so not every element
lies in [0, 1]. -/
theorem claim_C5_counterexample :
    extract_skills_counts counterexample_resume_text = [12, 0, 0, 2, 0] ∧
    (extract_ml_features 12 0 (extract_skills_counts counterexample_resume_text)
      0 none).get? 0 = some (6/5) ∧ ¬ ((6/5 : ℚ) ≤ 1) := by
  have hc : extract_skills_counts counterexample_resume_text = [12, 0, 0, 2, 0] := by
    decide
  refine ⟨hc, ?_, by norm_num⟩
  rw [hc]
  simp only [extract_ml_features, List.map_cons, List.map_nil,
    List.cons_append, List.get?]
  norm_num

/-- C5 (amended): every element of the résumé feature vector is
nonnegative and at most 3: the per-category skill densities are category
count / 10 (up to 15/10 for the programming category) and the total
skill density is total count / 20 (up to 60/20 = 3), so these can exceed
1, while the experience, education, section-coverage and word-count
elements (the last four) always lie in [0, 1]. -/
theorem claim_C5_resume_feature_bounds (text : String) (wc sf : ℕ) (ey : ℚ)
    (deg : Option DegreeLevel) (hey : 0 ≤ ey) (hsf : sf ≤ 8) :
    (∀ x ∈ extract_ml_features wc sf (extract_skills_counts text) ey deg,
      0 ≤ x ∧ x ≤ 3) ∧
    (∀ x ∈ (extract_ml_features wc sf (extract_skills_counts text) ey deg).drop 6,
      x ≤ 1) := by
  have h1 : ((programming_skills.filter (hasSkill (toLowerChars text))).length : ℚ) ≤ 15 := by
    have := List.length_filter_le (hasSkill (toLowerChars text)) programming_skills
    exact_mod_cast this.trans (by norm_num [programming_skills])
  have h2 : ((data_science_skills.filter (hasSkill (toLowerChars text))).length : ℚ) ≤ 13 := by
    have := List.length_filter_le (hasSkill (toLowerChars text)) data_science_skills
    exact_mod_cast this.trans (by norm_num [data_science_skills])
  have h3 : ((web_dev_skills.filter (hasSkill (toLowerChars text))).length : ℚ) ≤ 12 := by
    have := List.length_filter_le (hasSkill (toLowerChars text)) web_dev_skills
    exact_mod_cast this.trans (by norm_num [web_dev_skills])
  have h4 : ((mobile_dev_skills.filter (hasSkill (toLowerChars text))).length : ℚ) ≤ 8 := by
    have := List.length_filter_le (hasSkill (toLowerChars text)) mobile_dev_skills
    exact_mod_cast this.trans (by norm_num [mobile_dev_skills])
  have h5 : ((devops_skills.filter (hasSkill (toLowerChars text))).length : ℚ) ≤ 12 := by
    have := List.length_filter_le (hasSkill (toLowerChars text)) devops_skills
    exact_mod_cast this.trans (by norm_num [devops_skills])
  have hedu : 0 ≤ education_level_encoding deg ∧ education_level_encoding deg ≤ 1 := by
    rcases deg with _ | level
    · norm_num [education_level_encoding]
    · rcases level <;> norm_num [education_level_encoding]
  have hlen : ((resume_sections.length : ℕ) : ℚ) = 8 := by
    norm_num [resume_sections]
  have hsfq : ((sf : ℚ)) ≤ 8 := by exact_mod_cast hsf
  have hls : extract_ml_features wc sf (extract_skills_counts text) ey deg =
      [((programming_skills.filter (hasSkill (toLowerChars text))).length : ℚ) / 10,
       ((data_science_skills.filter (hasSkill (toLowerChars text))).length : ℚ) / 10,
       ((web_dev_skills.filter (hasSkill (toLowerChars text))).length : ℚ) / 10,
       ((mobile_dev_skills.filter (hasSkill (toLowerChars text))).length : ℚ) / 10,
       ((devops_skills.filter (hasSkill (toLowerChars text))).length : ℚ) / 10,
       (((programming_skills.filter (hasSkill (toLowerChars text))).length +
         ((data_science_skills.filter (hasSkill (toLowerChars text))).length +
          ((web_dev_skills.filter (hasSkill (toLowerChars text))).length +
           ((mobile_dev_skills.filter (hasSkill (toLowerChars text))).length +
            ((devops_skills.filter (hasSkill (toLowerChars text))).length + 0)))) : ℕ) : ℚ) / 20,
       min (ey / 10) 1,
       education_level_encoding deg,
       (sf : ℚ) / ((resume_sections.length : ℕ) : ℚ),
       min ((wc : ℚ) / 1000) 1] := rfl
  rw [hls]
  constructor
  · intro x hx
    simp only [List.mem_cons, List.not_mem_nil, or_false] at hx
    rcases hx with rfl | rfl | rfl | rfl | rfl | rfl | rfl | rfl | rfl | rfl
    · exact ⟨by positivity, by rw [div_le_iff₀ (by norm_num)]; linarith⟩
    · exact ⟨by positivity, by rw [div_le_iff₀ (by norm_num)]; linarith⟩
    · exact ⟨by positivity, by rw [div_le_iff₀ (by norm_num)]; linarith⟩
    · exact ⟨by positivity, by rw [div_le_iff₀ (by norm_num)]; linarith⟩
    · exact ⟨by positivity, by rw [div_le_iff₀ (by norm_num)]; linarith⟩
    · constructor
      · positivity
      · rw [div_le_iff₀ (by norm_num)]
        push_cast
        linarith
    · exact ⟨le_min (by positivity) zero_le_one,
        (min_le_right _ _).trans (by norm_num)⟩
    · exact ⟨hedu.1, hedu.2.trans (by norm_num)⟩
    · constructor
      · positivity
      · rw [hlen, div_le_iff₀ (by norm_num)]
        linarith
    · exact ⟨le_min (by positivity) zero_le_one,
        (min_le_right _ _).trans (by norm_num)⟩
  · intro x hx
    simp only [List.drop, List.mem_cons, List.not_mem_nil, or_false] at hx
    rcases hx with rfl | rfl | rfl | rfl
    · exact min_le_right _ _
    · exact hedu.2
    · rw [hlen, div_le_one (by norm_num)]
      linarith
    · exact min_le_right _ _

/-- C5 witness: `claim_C5_resume_feature_bounds` at the counterexample
text with experience 0, no degree and no sections. -/
theorem claim_C5_resume_feature_bounds_witness :
    (∀ x ∈ extract_ml_features 12 0 (extract_skills_counts
        counterexample_resume_text) 0 none, 0 ≤ x ∧ x ≤ 3) ∧
    (∀ x ∈ (extract_ml_features 12 0 (extract_skills_counts
        counterexample_resume_text) 0 none).drop 6, x ≤ 1) :=
  claim_C5_resume_feature_bounds counterexample_resume_text 12 0 0 none
    (by norm_num) (by norm_num)
